import Mathlib

/-!
Verification development for the osml-models repository.

This file gives a shallow embedding, in Lean 4, of the core pipeline of the
repository:

* `process_gdal_image_to_rgb` (src/aws/osml/models/sam3/app.py): converts a
  decoded multi-band raster into a canonical uint8 RGB image (channel
  selection, NoData masking, dtype-dependent range normalization, layout
  transpose).
* `mask_to_polygon` (same file): converts a rank-2 binary mask into a closed
  polygon ring, or signals absence.
* `sam3_outputs_to_geojson` (same file): reconciles raw mask-tensor shapes,
  filters empty detections on the device, extracts polygons (concurrently for
  more than two detections), and assembles the GeoJSON FeatureCollection.
* `get_dominant_color` / `trigger_behavior_by_color`
  (src/aws/osml/models/failure/app.py): the color-triggered fault injector.

Modelling conventions: numpy / torch scalar values are embedded as exact
rationals (`ℚ`); `astype(np.uint8)` truncation toward zero is `truncQ`;
matrices are lists of list rows accessed through total `getD`-style accessors;
external library calls (OpenCV contour extraction) are passed in as explicit
arguments so theorems quantify over them.  The helper `detect_to_feature` is
imported by the sources from `aws.osml.models.server_utils` but its definition
is not present under src/, so it is modelled from the spec (see its doc
comment).
-/

namespace OsmlModels

/-! ### Matrices of rationals and basic accessors -/

abbrev Mat := List (List ℚ)
abbrev MatZ := List (List ℤ)

/-- Total element accessor for a rational matrix (0 outside bounds). -/
def qget (m : Mat) (i j : ℕ) : ℚ := ((m[i]?.getD [])[j]?).getD 0

/-- Total element accessor for an integer matrix (0 outside bounds). -/
def zget (m : MatZ) (i j : ℕ) : ℤ := ((m[i]?.getD [])[j]?).getD 0

/-- Elementwise map on a rational matrix (numpy elementwise ufunc). -/
def matMap (f : ℚ → ℚ) (m : Mat) : Mat := m.map (List.map f)

/-- Elementwise cast of a rational matrix to an integer matrix. -/
def matCast (f : ℚ → ℤ) (m : Mat) : MatZ := m.map (List.map f)

/-- Maximum of a list of rationals (`ndarray.max()`); 0 on the empty list,
which the source never evaluates (GDAL rasters are nonempty). -/
def listMax : List ℚ → ℚ
  | [] => 0
  | x :: xs => xs.foldl max x

/-- Minimum of a list of rationals (`ndarray.min()`); 0 on the empty list. -/
def listMin : List ℚ → ℚ
  | [] => 0
  | x :: xs => xs.foldl min x

/-- `band_data.max()` over a 2-D band. -/
def matMax (m : Mat) : ℚ := listMax m.flatten

/-- `band_data.min()` over a 2-D band. -/
def matMin (m : Mat) : ℚ := listMin m.flatten

/-! ### Scalar conversions -/

/-- `astype(np.uint8)` / `int(...)` on a nonnegative-or-clipped value:
truncation toward zero. -/
def truncQ (x : ℚ) : ℤ := if 0 ≤ x then ⌊x⌋ else -⌊-x⌋

/-- `np.clip(x, 0, 255)`. -/
def clip0255 (x : ℚ) : ℚ := max 0 (min x 255)

/-! ### The raster data model

`RasterGrid` embeds a GDAL dataset as read by `process_gdal_image_to_rgb`:
a dtype tag, and per band the pixel data (`ReadAsArray`) together with the
optional NoData sentinel (`GetRasterBand(i).GetNoDataValue()`). -/

/-- Numpy dtype tags distinguished by `process_gdal_image_to_rgb`. -/
inductive DType where
  | u8 | u16 | i16 | f32 | f64 | other
  deriving DecidableEq, Repr

/-- `np.issubdtype(dtype, np.floating)`. -/
def DType.isFloating : DType → Bool
  | .f32 => true
  | .f64 => true
  | _ => false

structure Band where
  data : Mat
  nodata : Option ℚ
  deriving DecidableEq, Repr

instance : Inhabited Band := ⟨⟨[], none⟩⟩

structure RasterGrid where
  dtype : DType
  bands : List Band
  deriving DecidableEq, Repr

/-! ### process_gdal_image_to_rgb -/

/-- NoData comparison (sam3/app.py lines 249-254): floating dtypes use
`np.isclose(band_data, nodata_value, rtol=1e-5, atol=1e-8)`, i.e.
`|x - nd| ≤ atol + rtol * |nd|`; integer dtypes use exact equality. -/
def matchesNoData (dt : DType) (nd x : ℚ) : Bool :=
  if dt.isFloating then |x - nd| ≤ 1 / 100000000 + (1 / 100000) * |nd|
  else x == nd

/-- `image_array[band_idx, nodata_mask] = 0` for one selected band, guarded on
the band having a declared NoData value. -/
def applyNoData (dt : DType) (nd : Option ℚ) (m : Mat) : Mat :=
  match nd with
  | none => m
  | some v => matMap (fun x => if matchesNoData dt v x then 0 else x) m

/-- Channel selection (lines 229-236): at least 3 bands → first three bands;
exactly 1 band → `np.repeat(..., 3, axis=0)`; otherwise
`ValueError("Unsupported number of bands")`, embedded as `none`.
Only the first three bands are ever read, so they are passed explicitly. -/
def selectChannels (nbands : ℕ) (b0 b1 b2 : Band) : Option (Mat × Mat × Mat) :=
  if 3 ≤ nbands then some (b0.data, b1.data, b2.data)
  else if nbands = 1 then some (b0.data, b0.data, b0.data)
  else none

/-- NoData masking loop (lines 240-255): `for band_idx in range(min(3, num_bands))`.
Note that for a single-band input only channel 0 of the replicated RGB array
is masked. -/
def maskChannels (dt : DType) (nbands : ℕ) (b0 b1 b2 : Band)
    (c : Mat × Mat × Mat) : Mat × Mat × Mat :=
  (if 0 < min 3 nbands then applyNoData dt b0.nodata c.1 else c.1,
   if 1 < min 3 nbands then applyNoData dt b1.nodata c.2.1 else c.2.1,
   if 2 < min 3 nbands then applyNoData dt b2.nodata c.2.2 else c.2.2)

/-- `image_array.max()` over the 3-channel array. -/
def globalMax (c : Mat × Mat × Mat) : ℚ := listMax (c.1.flatten ++ c.2.1.flatten ++ c.2.2.flatten)

/-- `image_array.min()` over the 3-channel array. -/
def globalMin (c : Mat × Mat × Mat) : ℚ := listMin (c.1.flatten ++ c.2.1.flatten ++ c.2.2.flatten)

/-- uint8 branch (line 262): values pass through unchanged (already uint8). -/
def u8cast : ℚ → ℤ := truncQ

/-- uint16 branch (lines 263-270) with `max_val = np.iinfo(np.uint16).max`:
`(x / 65535 * 255).clip(0, 255).astype(np.uint8)`. -/
def u16norm (x : ℚ) : ℤ := truncQ (clip0255 (x / 65535 * 255))

/-- int16 branch (lines 265-270): first shifted by `- np.iinfo(np.int16).min`
(i.e. `+ 32768`), then scaled by `max_val = np.iinfo(np.int16).max = 32767`:
`((x + 32768) / 32767 * 255).clip(0, 255).astype(np.uint8)`. -/
def i16norm (x : ℚ) : ℤ := truncQ (clip0255 ((x + 32768) / 32767 * 255))

/-- float branch, normalized 0-1 data (lines 276-278): `(x * 255).clip(0,255)`. -/
def fNormScale (x : ℚ) : ℤ := truncQ (clip0255 (x * 255))

/-- float branch, already 0-255 data (lines 279-281): `x.clip(0, 255)` cast. -/
def fBoundCast (x : ℚ) : ℤ := truncQ (clip0255 x)

/-- fallback branch for unknown dtypes (lines 296-299): direct uint8 cast,
which wraps modulo 256. -/
def otherCast (x : ℚ) : ℤ := (truncQ x).emod 256

/-- Raw-float per-band min-max stretch (lines 283-295): stretch to [0,255]
when the band is non-constant, else a constant 0 band; the whole float array
is cast to uint8 after the loop. -/
def stretchBand (m : Mat) : MatZ :=
  let bmin := matMin m
  let bmax := matMax m
  if bmin < bmax then
    matCast (fun x => truncQ (clip0255 ((x - bmin) / (bmax - bmin) * 255))) m
  else
    matCast (fun _ => 0) m

/-- Apply one scalar conversion to all three channels. -/
def castTriple (f : ℚ → ℤ) (c : Mat × Mat × Mat) : MatZ × MatZ × MatZ :=
  (matCast f c.1, matCast f c.2.1, matCast f c.2.2)

/-- Float classification (lines 271-295): normalized 0-1 data, bounded 0-255
data, or raw data stretched per band. -/
def normalizeFloat (c : Mat × Mat × Mat) : MatZ × MatZ × MatZ :=
  if globalMax c ≤ 1 ∧ 0 ≤ globalMin c then castTriple fNormScale c
  else if globalMax c ≤ 255 ∧ 0 ≤ globalMin c then castTriple fBoundCast c
  else (stretchBand c.1, stretchBand c.2.1, stretchBand c.2.2)

/-- Dtype dispatch of lines 257-299: range normalization to uint8. -/
def normalizeChannels (dt : DType) (c : Mat × Mat × Mat) : MatZ × MatZ × MatZ :=
  match dt with
  | .u8 => castTriple u8cast c
  | .u16 => castTriple u16norm c
  | .i16 => castTriple i16norm c
  | .f32 => normalizeFloat c
  | .f64 => normalizeFloat c
  | .other => castTriple otherCast c

/-- Final transpose (lines 301-306) from channel-major (3, H, W) to
pixel-major (H, W, 3); dimensions are taken from channel 0, matching the
rectangular numpy array. -/
def toHWC (c0 c1 c2 : MatZ) : List (List (List ℤ)) :=
  (List.range c0.length).map fun i =>
    (List.range (c0[i]?.getD []).length).map fun j =>
      [zget c0 i j, zget c1 i j, zget c2 i j]

/-- Pixel accessor on the transposed output: channel `c` of pixel `(i, j)`. -/
def pixAt (out : List (List (List ℤ))) (i j c : ℕ) : ℤ :=
  (((out[i]?.getD [])[j]?).getD [])[c]?.getD 0

/-- `toHWC` on a channel triple. -/
def toHWC3 (nc : MatZ × MatZ × MatZ) : List (List (List ℤ)) :=
  toHWC nc.1 nc.2.1 nc.2.2

/-- Shallow embedding of `process_gdal_image_to_rgb` (sam3/app.py lines
205-308): channel selection, NoData masking, dtype normalization, transpose.
`none` embeds the `ValueError` for unsupported band counts.  Only the dtype
tag, the band count and the first three bands are ever read by the source
function. -/
def process_gdal_image_to_rgb (g : RasterGrid) : Option (List (List (List ℤ))) :=
  (selectChannels g.bands.length (g.bands.getD 0 default) (g.bands.getD 1 default)
    (g.bands.getD 2 default)).map fun c =>
      toHWC3 (normalizeChannels g.dtype (maskChannels g.dtype g.bands.length
        (g.bands.getD 0 default) (g.bands.getD 1 default) (g.bands.getD 2 default) c))

/-- The three selected channels after NoData masking, as a standalone
definition (used to state classification conditions in theorems). -/
def maskedTriple (g : RasterGrid) : Mat × Mat × Mat :=
  maskChannels g.dtype g.bands.length (g.bands.getD 0 default) (g.bands.getD 1 default)
    (g.bands.getD 2 default)
    ((selectChannels g.bands.length (g.bands.getD 0 default) (g.bands.getD 1 default)
      (g.bands.getD 2 default)).getD ([], [], []))

/-! ### mask_to_polygon (sam3/app.py lines 311-338)

OpenCV's `cv2.findContours` is an external library call; the contour list it
returns is passed to the embedding as an explicit argument, so every theorem
quantifies over all possible contour answers.  A contour is the list of its
(x, y) integer vertices, in encounter order; `cv2.contourArea` computes the
absolute enclosed area by Green's formula (the shoelace sum). -/

abbrev MaskM := List (List Bool)
abbrev Contour := List (ℤ × ℤ)
abbrev Poly := List (ℚ × ℚ)

/-- `mask.sum()` on a boolean mask: the number of positive pixels. -/
def maskCount (m : MaskM) : ℕ := (m.map (fun r => r.count true)).sum

/-- Twice the signed area of a closed polygonal chain (shoelace sum). -/
def shoelace : Contour → ℤ
  | [] => 0
  | p :: ps => (List.zip (p :: ps) (ps ++ [p])).foldl
      (fun acc q => acc + (q.1.1 * q.2.2 - q.2.1 * q.1.2)) 0

/-- `cv2.contourArea`: absolute enclosed area. -/
def contourArea (c : Contour) : ℚ := (|shoelace c| : ℤ) / 2

/-- `max(contours, key=cv2.contourArea)` over a nonempty list: Python's `max`
keeps the first element among ties. -/
def largestContour (c : Contour) (cs : List Contour) : Contour :=
  cs.foldl (fun acc d => if contourArea acc < contourArea d then d else acc) c

/-- Lines 335-336: append the first vertex when the ring is not yet closed. -/
def closeRing (p : Poly) : Poly :=
  if 3 ≤ p.length ∧ p.headD (0, 0) ≠ p.getLastD (0, 0) then p ++ [p.headD (0, 0)] else p

/-- Lines 331-338 applied to the selected largest contour: discard it when it
has at most 3 vertices (line 331), otherwise shift every vertex by +0.5
(line 334), close the ring (lines 335-336) and require at least 3 vertices
(line 338). -/
def polygonOfContour (largest : Contour) : Option Poly :=
  if largest.length ≤ 3 then none
  else if 3 ≤ (closeRing (largest.map (fun v => ((v.1 : ℚ) + 1 / 2, (v.2 : ℚ) + 1 / 2)))).length then
    some (closeRing (largest.map (fun v => ((v.1 : ℚ) + 1 / 2, (v.2 : ℚ) + 1 / 2))))
  else none

/-- Shallow embedding of `mask_to_polygon` restricted to rank-2 masks (the
`ndim > 2` squeeze is the identity there and `ndim != 2` cannot hold).
`contours` is the external `cv2.findContours` result on the binarized mask. -/
def mask_to_polygon (mask : MaskM) (contours : List Contour) : Option Poly :=
  if maskCount mask = 0 then none
  else
    match contours with
    | [] => none
    | c :: rest => polygonOfContour (largestContour c rest)

/-! ### GeoJSON features

`detect_to_feature` is imported by both apps from
`aws.osml.models.server_utils`, but its definition is not present under src/
(only its callers and its unit tests are), so it is modelled from the spec.
Feature ids (`token_hex`) are fresh random identifiers with no structural
content and are not modelled. -/

structure ModelMetadata where
  modelName : String
  ontologyName : String
  ontologyVersion : String
  deriving DecidableEq, Repr

/-- The per-feature image geometry: the extracted polygon when present, else
the Point fallback at (0, 0). -/
inductive ImageGeometry where
  | polygonGeom (pts : Poly)
  | pointGeom
  deriving DecidableEq, Repr

structure FeatureClass where
  iri : String
  score : ℚ
  deriving DecidableEq, Repr

structure Feature where
  imageGeometry : ImageGeometry
  imageBBox : List ℚ
  featureClasses : List FeatureClass
  modelMetadata : Option ModelMetadata
  deriving DecidableEq, Repr

instance : Inhabited Feature := ⟨⟨.pointGeom, [], [], none⟩⟩

/-- Modelled from the spec: `detect_to_feature` (declared in
`aws.osml.models.server_utils`, whose body is missing from src/).  Per spec
§4.4 (FeatureAssembler): geometry is the extracted Polygon if present, else a
Point fallback at (0,0); bounding box and score are copied verbatim; the class
label is attached; the fresh random feature id is not modelled. -/
def detect_to_feature (bbox : List ℚ) (mask : Option Poly) (score : ℚ)
    (dtype : String) : Feature :=
  { imageGeometry := match mask with
      | some p => .polygonGeom p
      | none => .pointGeom
    imageBBox := bbox
    featureClasses := [⟨dtype, score⟩]
    modelMetadata := none }

/-- Lines 429-433: attach the model metadata to a built feature. -/
def withMetadata (f : Feature) (md : ModelMetadata) : Feature :=
  { f with modelMetadata := some md }

structure FeatureCollection where
  features : List Feature
  deriving DecidableEq, Repr

/-! ### sam3_outputs_to_geojson (sam3/app.py lines 341-437) -/

/-- A raw mask tensor of the ranks the source distinguishes.  Rank 5 stands
in for all ranks above 4 (they take the same code path as rank 1). -/
inductive MasksTensor where
  | rank1 (t : List Bool)
  | rank2 (t : MaskM)
  | rank3 (t : List MaskM)
  | rank4 (t : List (List MaskM))
  | rank5 (t : List (List (List MaskM)))
  deriving DecidableEq, Repr

/-- `tensor.shape` (tensors are rectangular, so inner dimensions are read off
the first element). -/
def MasksTensor.shape : MasksTensor → List ℕ
  | .rank1 t => [t.length]
  | .rank2 t => [t.length, (t.getD 0 []).length]
  | .rank3 t => [t.length, (t.getD 0 []).length, ((t.getD 0 []).getD 0 []).length]
  | .rank4 t => [t.length, (t.getD 0 []).length, ((t.getD 0 []).getD 0 []).length,
      (((t.getD 0 []).getD 0 []).getD 0 []).length]
  | .rank5 t => [t.length, (t.getD 0 []).length, ((t.getD 0 []).getD 0 []).length,
      (((t.getD 0 []).getD 0 []).getD 0 []).length,
      ((((t.getD 0 []).getD 0 []).getD 0 []).getD 0 []).length]

/-- The two `ValueError`s of the shape-reconciliation stage. -/
inductive ShapeErr where
  /-- "Cannot process masks with shape {}" (line 370). -/
  | cannotProcess (shape : List ℕ)
  /-- "Mask shape normalization failed: {}" (line 375). -/
  | normalizationFailed (shape : List ℕ)
  deriving DecidableEq, Repr

/-- Shape reconciliation (lines 357-375): rank 4 with `shape[1] == 1` is
squeezed; rank 4 otherwise is salvaged as `masks[:, 0, :, :]` when the two
trailing dimensions are equal (square) and otherwise stays rank 4 and fails
the final rank-3 verification; rank 2 gains a leading batch dimension; rank 3
passes through; any other rank raises immediately. -/
def reconcileRank4 (t : List (List MaskM)) : Except ShapeErr (List MaskM) :=
  if (t.getD 0 []).length = 1 then .ok (t.map (fun x => x.getD 0 []))
  else if ((t.getD 0 []).getD 0 []).length = (((t.getD 0 []).getD 0 []).getD 0 []).length then
    .ok (t.map (fun x => x.getD 0 []))
  else .error (.normalizationFailed (MasksTensor.rank4 t).shape)

def reconcileMasks : MasksTensor → Except ShapeErr (List MaskM)
  | .rank4 t => reconcileRank4 t
  | .rank2 t => .ok [t]
  | .rank3 t => .ok t
  | .rank1 t => .error (.cannotProcess (MasksTensor.rank1 t).shape)
  | .rank5 t => .error (.cannotProcess (MasksTensor.rank5 t).shape)

/-- `mask_sums = masks.sum(dim=(1, 2)); non_empty_mask = mask_sums > 0`
for one mask. -/
def maskNonEmpty (m : MaskM) : Bool := 0 < maskCount m

/-- Boolean-mask indexing `xs[keep]` along the first dimension. -/
def filterByKeep (keep : List Bool) (xs : List α) : List α :=
  ((keep.zip xs).filter (fun p => p.1)).map (fun p => p.2)

/-- Outcome of the on-device empty-mask filtering block (lines 377-399). -/
inductive FilterOutcome where
  | proceed (masks : List MaskM) (boxes : List (List ℚ)) (scores : List ℚ)
  | emptyReturn
  deriving DecidableEq, Repr

/-- The CUDA filtering block, lines 378-399.  The keep-mask length check
raises `ValueError` (line 385), but that raise happens inside the enclosing
`try`, whose blanket `except Exception` (line 397) catches it and falls
through to unfiltered CPU processing — so a length mismatch degrades instead
of propagating.  Likewise, a `boxes` length mismatch raises inside the filter
branch after `masks` has already been reassigned, and is caught the same way. -/
def gpuFilter (masks : List MaskM) (boxes : List (List ℚ)) (scores : List ℚ)
    (n : ℕ) : FilterOutcome :=
  if (masks.map maskNonEmpty).length ≠ n then .proceed masks boxes scores
  else if (masks.map maskNonEmpty).any id then
    if boxes.length ≠ (masks.map maskNonEmpty).length then
      .proceed (filterByKeep (masks.map maskNonEmpty) masks) boxes scores
    else
      .proceed (filterByKeep (masks.map maskNonEmpty) masks)
        (filterByKeep (masks.map maskNonEmpty) boxes)
        (filterByKeep (masks.map maskNonEmpty) scores)
  else .emptyReturn

/-- Polygon extraction, lines 413-418.  With more than two detections the
source maps `mask_to_polygon` over the masks through `ThreadPoolExecutor.map`,
whose contract returns results in argument order regardless of worker
completion order, so both branches are order-preserving maps; the sequential
branch indexes `masks_numpy[i]` for `i < num_detections`. -/
def computePolygons (ex : MaskM → Option Poly) (masks : List MaskM) (n : ℕ) :
    List (Option Poly) :=
  if 2 < n then masks.map ex
  else (List.range n).map (fun i => ex (masks.getD i []))

/-- Feature-assembly loop, lines 420-435. -/
def buildFeatures (ex : MaskM → Option Poly) (masks : List MaskM)
    (boxes : List (List ℚ)) (scores : List ℚ) (dt : String) (md : ModelMetadata) :
    List Feature :=
  let polygons := computePolygons ex masks scores.length
  (List.range scores.length).map fun i =>
    withMetadata
      (detect_to_feature (boxes.getD i []) (polygons.getD i none) (scores.getD i 0) dt) md

/-- A raw detection batch: mask tensor, boxes `[N, 4]`, scores `[N]`. -/
structure RawBatch where
  masks : MasksTensor
  boxes : List (List ℚ)
  scores : List ℚ
  deriving DecidableEq, Repr

/-- The filtering stage runs only on CUDA devices with at least one
detection (line 378); otherwise the batch proceeds unfiltered. -/
def filterStage (cuda : Bool) (masks3 : List MaskM) (batch : RawBatch) : FilterOutcome :=
  if cuda ∧ 0 < batch.scores.length then
    gpuFilter masks3 batch.boxes batch.scores batch.scores.length
  else .proceed masks3 batch.boxes batch.scores

/-- The tail of the function: the early empty return (line 396) or the
extraction-and-assembly loop (lines 413-437). -/
def assembleOutcome (ex : MaskM → Option Poly) (o : FilterOutcome) (dt : String)
    (md : ModelMetadata) : FeatureCollection :=
  match o with
  | .emptyReturn => ⟨[]⟩
  | .proceed ms bs ss => ⟨buildFeatures ex ms bs ss dt md⟩

/-- Shallow embedding of `sam3_outputs_to_geojson`.  `cuda` is the module
constant `DEVICE == "cuda"`; `ex` is the `mask_to_polygon` extractor applied
to each transferred mask (a parameter because its contour step is external);
`dt`/`md` are the detection type and module metadata constants.  After shape
reconciliation the function always returns normally; the only modeled raises
are the two reconciliation `ValueError`s (the keep-mask mismatch raise is
caught by the function's own blanket handler, see `gpuFilter`). -/
def sam3_outputs_to_geojson (cuda : Bool) (ex : MaskM → Option Poly)
    (batch : RawBatch) (dt : String) (md : ModelMetadata) :
    Except ShapeErr FeatureCollection :=
  match reconcileMasks batch.masks with
  | .error e => .error e
  | .ok masks3 => .ok (assembleOutcome ex (filterStage cuda masks3 batch) dt md)

/-- Number of surviving detections carried by a filter outcome. -/
def outcomeLen : FilterOutcome → ℕ
  | .emptyReturn => 0
  | .proceed _ _ ss => ss.length

/-- The number of features the collection will carry, replayed from the
filtering stage (a specification helper; it does not involve the extractor). -/
def survivingCount (cuda : Bool) (batch : RawBatch) : ℕ :=
  match reconcileMasks batch.masks with
  | .error _ => 0
  | .ok masks3 => outcomeLen (filterStage cuda masks3 batch)

/-! ### The failure model (failure/app.py)

`get_dominant_color` and `trigger_behavior_by_color`.  `np.mean` over the
spatial axes is the exact rational mean; `astype(int)` / `int(...)` truncate
toward zero. -/

/-- `gdal_dataset.ReadAsArray()` for the failure model: either a 2-D
grayscale array or a channel-major 3-D array. -/
inductive FailureImage where
  | planar2 (m : Mat)
  | planar3 (chans : List Mat)
  deriving Repr

/-- Mean of a list of rationals. -/
def listMean (l : List ℚ) : ℚ := l.sum / l.length

/-- `np.mean(image_array, axis=(1, 2))` for one channel. -/
def channelMean (m : Mat) : ℚ := listMean m.flatten

/-- Shallow embedding of `get_dominant_color` (failure/app.py lines 24-42). -/
def get_dominant_color : FailureImage → ℤ × ℤ × ℤ
  | .planar2 _ => (0, 0, 0)
  | .planar3 chans =>
    let avg := chans.map channelMean
    if 3 ≤ avg.length then
      (truncQ (avg.getD 0 0), truncQ (avg.getD 1 0), truncQ (avg.getD 2 0))
    else
      let a := truncQ (avg.getD 0 0)
      (a, a, a)

/-- The closed set of behaviors of `trigger_behavior_by_color`. -/
inductive FailureResponse where
  /-- status 500, "Unable to process request." -/
  | serverError
  /-- status 200, malformed JSON body. -/
  | malformedJson
  /-- status 200, schema-violating keys. -/
  | invalidKeys
  /-- status 408 after a simulated delay. -/
  | timeout
  /-- status 200, standard FeatureCollection with the given features. -/
  | standard (features : List Feature)
  deriving DecidableEq, Repr

def FailureResponse.status : FailureResponse → ℕ
  | .serverError => 500
  | .malformedJson => 200
  | .invalidKeys => 200
  | .timeout => 408
  | .standard _ => 200

/-- Shallow embedding of `trigger_behavior_by_color` (failure/app.py lines
45-103).  The fallback calls `detect_to_feature([100, 100, 200, 200],
detection_type="test_object")` with its default mask `None` and score 1.0. -/
def trigger_behavior_by_color (r g b : ℤ) : FailureResponse :=
  if 200 < r ∧ g < 50 ∧ b < 50 then .serverError
  else if 200 < g ∧ r < 50 ∧ b < 50 then .malformedJson
  else if 200 < r ∧ 200 < b ∧ g < 50 then .invalidKeys
  else if 200 < b ∧ r < 50 ∧ g < 50 then .timeout
  else .standard [detect_to_feature [100, 100, 200, 200] none 1 "test_object"]

/-- Channel selector on a triple (channel 0, 1, or 2). -/
def chanG (c : Mat × Mat × Mat) : ℕ → Mat
  | 0 => c.1
  | 1 => c.2.1
  | _ => c.2.2

/-! ### Concrete instances used by counterexamples and witnesses -/

/-- The sam3 module metadata with its default environment values. -/
def mdSam : ModelMetadata := ⟨"sam3", "objects", "1.0.0"⟩

/-- A CUDA-resident raw batch whose reconciled mask count (3) disagrees with
its score count (2): the failing input for the keep-mask length check. -/
def c1_batch : RawBatch :=
  ⟨.rank3 [[[true]], [[false]], [[false]]], [[0, 0, 1, 1], [0, 0, 2, 2]], [1 / 2, 1 / 3]⟩

/-- An int16 raster, three 1x1 bands all equal to the declared NoData
sentinel 5. -/
def c2_grid : RasterGrid :=
  ⟨.i16, [⟨[[5]], some 5⟩, ⟨[[5]], some 5⟩, ⟨[[5]], some 5⟩]⟩

/-- A single-band uint8 raster whose only pixel equals the declared NoData
sentinel 5. -/
def c3_grid : RasterGrid := ⟨.u8, [⟨[[5]], some 5⟩]⟩

/-- A rank-4 all-false mask tensor of shape [3, 2, 64, 64]. -/
def c4_tensor : MasksTensor :=
  .rank4 (List.replicate 3 (List.replicate 2 (List.replicate 64 (List.replicate 64 false))))

/-- A 4-band uint8 raster. -/
def c8_gA : RasterGrid :=
  ⟨.u8, [⟨[[1]], none⟩, ⟨[[2]], none⟩, ⟨[[3]], none⟩, ⟨[[4]], none⟩]⟩

/-- The same raster as `c8_gA` except for its 4th band (data and sentinel). -/
def c8_gB : RasterGrid :=
  ⟨.u8, [⟨[[1]], none⟩, ⟨[[2]], none⟩, ⟨[[3]], none⟩, ⟨[[7]], some 7⟩]⟩

/-- A one-detection batch (rank-2 mask, one box, one score). -/
def c9_batch : RawBatch := ⟨.rank2 [[true]], [[1, 2, 3, 4]], [9 / 10]⟩

/-! ### Helper lemmas -/

theorem row_matMap (f : ℚ → ℚ) (m : Mat) (i : ℕ) :
    (matMap f m)[i]?.getD [] = List.map f (m[i]?.getD []) := by
  unfold matMap
  rw [List.getElem?_map]
  cases m[i]? <;> rfl

theorem row_matCast (f : ℚ → ℤ) (m : Mat) (i : ℕ) :
    (matCast f m)[i]?.getD [] = List.map f (m[i]?.getD []) := by
  unfold matCast
  rw [List.getElem?_map]
  cases m[i]? <;> rfl

theorem length_matMap (f : ℚ → ℚ) (m : Mat) : (matMap f m).length = m.length :=
  List.length_map _ _

theorem length_matCast (f : ℚ → ℤ) (m : Mat) : (matCast f m).length = m.length :=
  List.length_map _ _

theorem qget_matMap (f : ℚ → ℚ) (m : Mat) (i j : ℕ)
    (hj : j < (m[i]?.getD []).length) :
    qget (matMap f m) i j = f (qget m i j) := by
  unfold qget
  rw [row_matMap, List.getElem?_map, List.getElem?_eq_getElem hj]
  rfl

theorem zget_matCast (f : ℚ → ℤ) (m : Mat) (i j : ℕ)
    (hj : j < (m[i]?.getD []).length) :
    zget (matCast f m) i j = f (qget m i j) := by
  unfold zget qget
  rw [row_matCast, List.getElem?_map, List.getElem?_eq_getElem hj]
  rfl

theorem getD_map_of_lt (f : α → β) (l : List α) (i : ℕ) (h : i < l.length)
    (d : β) (d2 : α) : (l.map f).getD i d = f (l.getD i d2) := by
  rw [List.getD_eq_getElem?_getD, List.getD_eq_getElem?_getD, List.getElem?_map,
    List.getElem?_eq_getElem h]
  rfl

theorem getD_map_range (F : ℕ → α) (n i : ℕ) (h : i < n) (d : α) :
    ((List.range n).map F).getD i d = F i := by
  rw [getD_map_of_lt F (List.range n) i (by simpa using h) d 0]
  congr 1
  rw [List.getD_eq_getElem?_getD, List.getElem?_range h]
  rfl

theorem applyNoData_length (dt : DType) (nd : Option ℚ) (m : Mat) :
    (applyNoData dt nd m).length = m.length := by
  cases nd with
  | none => rfl
  | some v => exact length_matMap _ _

theorem applyNoData_row_length (dt : DType) (nd : Option ℚ) (m : Mat) (i : ℕ) :
    ((applyNoData dt nd m)[i]?.getD []).length = (m[i]?.getD []).length := by
  cases nd with
  | none => rfl
  | some v => rw [applyNoData, row_matMap, List.length_map]

theorem qget_applyNoData_matched (dt : DType) (v : ℚ) (m : Mat) (i j : ℕ)
    (hj : j < (m[i]?.getD []).length) (hm : matchesNoData dt v (qget m i j) = true) :
    qget (applyNoData dt (some v) m) i j = 0 := by
  rw [applyNoData, qget_matMap _ _ _ _ hj, if_pos hm]

theorem applyNoData_id (dt : DType) (nd : Option ℚ) (m : Mat)
    (h : ∀ v, nd = some v → ∀ r ∈ m, ∀ x ∈ r, matchesNoData dt v x = false) :
    applyNoData dt nd m = m := by
  cases nd with
  | none => rfl
  | some v =>
    unfold applyNoData matMap
    calc m.map (List.map fun x => if matchesNoData dt v x then 0 else x)
        = m.map id := by
          apply List.map_congr_left
          intro r hr
          have : (List.map (fun x => if matchesNoData dt v x then 0 else x) r) = r.map id := by
            apply List.map_congr_left
            intro x hx
            simp [h v rfl r hr x hx]
          simpa using this
      _ = m := List.map_id m

theorem filterByKeep_length_le (keep : List Bool) (xs : List α) :
    (filterByKeep keep xs).length ≤ xs.length := by
  unfold filterByKeep
  calc (((keep.zip xs).filter (fun p => p.1)).map (fun p => p.2)).length
      = ((keep.zip xs).filter (fun p => p.1)).length := List.length_map _ _
    _ ≤ (keep.zip xs).length := List.length_filter_le _ _
    _ ≤ xs.length := by rw [List.length_zip]; omega

theorem buildFeatures_length (ex : MaskM → Option Poly) (masks : List MaskM)
    (boxes : List (List ℚ)) (scores : List ℚ) (dt : String) (md : ModelMetadata) :
    (buildFeatures ex masks boxes scores dt md).length = scores.length := by
  unfold buildFeatures
  rw [List.length_map, List.length_range]

theorem pixAt_toHWC (c0 c1 c2 : MatZ) (i j k : ℕ)
    (hi : i < c0.length) (hj : j < (c0[i]?.getD []).length) :
    pixAt (toHWC c0 c1 c2) i j k = [zget c0 i j, zget c1 i j, zget c2 i j].getD k 0 := by
  unfold pixAt toHWC
  rw [List.getElem?_map, List.getElem?_range hi]
  rw [Option.map_some', Option.getD_some]
  rw [List.getElem?_map, List.getElem?_range hj]
  rw [Option.map_some', Option.getD_some]
  rw [List.getD_eq_getElem?_getD]

theorem assembleOutcome_length (ex : MaskM → Option Poly) (o : FilterOutcome)
    (dt : String) (md : ModelMetadata) :
    (assembleOutcome ex o dt md).features.length = outcomeLen o := by
  cases o with
  | emptyReturn => rfl
  | proceed ms bs ss => exact buildFeatures_length ex ms bs ss dt md

theorem sam3_features_length (cuda : Bool) (ex : MaskM → Option Poly)
    (batch : RawBatch) (dt : String) (md : ModelMetadata) (fc : FeatureCollection)
    (h : sam3_outputs_to_geojson cuda ex batch dt md = .ok fc) :
    fc.features.length = survivingCount cuda batch := by
  cases hrec : reconcileMasks batch.masks with
  | error e =>
    rw [sam3_outputs_to_geojson, hrec] at h
    exact nomatch h
  | ok masks3 =>
    rw [sam3_outputs_to_geojson, hrec] at h
    rw [survivingCount, hrec]
    cases h
    exact assembleOutcome_length ex _ dt md

theorem outcomeLen_gpuFilter_le (masks3 : List MaskM) (boxes : List (List ℚ))
    (scores : List ℚ) :
    outcomeLen (gpuFilter masks3 boxes scores scores.length) ≤ scores.length := by
  unfold gpuFilter
  by_cases h1 : (masks3.map maskNonEmpty).length ≠ scores.length
  · rw [if_pos h1]
    exact Nat.le_refl _
  · rw [if_neg h1]
    by_cases h2 : (masks3.map maskNonEmpty).any id
    · rw [if_pos h2]
      by_cases h3 : boxes.length ≠ (masks3.map maskNonEmpty).length
      · rw [if_pos h3]
        exact Nat.le_refl _
      · rw [if_neg h3]
        exact filterByKeep_length_le _ _
    · rw [if_neg h2]
      exact Nat.zero_le _

theorem survivingCount_le (cuda : Bool) (batch : RawBatch) :
    survivingCount cuda batch ≤ batch.scores.length := by
  unfold survivingCount
  split
  · exact Nat.zero_le _
  · unfold filterStage
    split
    · exact outcomeLen_gpuFilter_le _ batch.boxes batch.scores
    · exact Nat.le_refl _

theorem headD_append (l l2 : List α) (d : α) (h : l ≠ []) :
    (l ++ l2).headD d = l.headD d := by
  cases l with
  | nil => exact absurd rfl h
  | cons a as => rfl

theorem headD_mem (l : List α) (d : α) (h : l ≠ []) : l.headD d ∈ l := by
  cases l with
  | nil => exact absurd rfl h
  | cons a as => exact List.mem_cons_self a as

theorem closeRing_spec (P : Poly) (h3 : 3 ≤ P.length) (hne : P ≠ []) :
    (closeRing P).headD (0, 0) = (closeRing P).getLastD (0, 0) ∧
    P.length ≤ (closeRing P).length ∧
    ∀ q ∈ closeRing P, q ∈ P := by
  unfold closeRing
  by_cases hcl : 3 ≤ P.length ∧ P.headD (0, 0) ≠ P.getLastD (0, 0)
  · rw [if_pos hcl]
    refine ⟨?_, ?_, ?_⟩
    · rw [headD_append _ _ _ hne, List.getLastD_concat]
    · rw [List.length_append]
      omega
    · intro q hq
      rw [List.mem_append] at hq
      cases hq with
      | inl hq => exact hq
      | inr hq => exact (List.mem_singleton.mp hq) ▸ headD_mem P _ hne
  · rw [if_neg hcl]
    refine ⟨?_, Nat.le_refl _, fun q hq => hq⟩
    by_contra hne2
    exact hcl ⟨h3, hne2⟩

theorem polygonOfContour_spec (L : Contour) (h4 : 4 ≤ L.length) :
    ∃ p, polygonOfContour L = some p ∧
      p.headD (0, 0) = p.getLastD (0, 0) ∧ 3 ≤ p.length ∧
      ∀ q ∈ p, ∃ v ∈ L, q = ((v.1 : ℚ) + 1 / 2, (v.2 : ℚ) + 1 / 2) := by
  have hPlen : (L.map (fun v => ((v.1 : ℚ) + 1 / 2, (v.2 : ℚ) + 1 / 2))).length = L.length :=
    List.length_map _ _
  have hne : L.map (fun v => ((v.1 : ℚ) + 1 / 2, (v.2 : ℚ) + 1 / 2)) ≠ [] := by
    intro h0
    rw [h0] at hPlen
    simp only [List.length_nil] at hPlen
    omega
  obtain ⟨hhl, hlen, hmem⟩ :=
    closeRing_spec (L.map (fun v => ((v.1 : ℚ) + 1 / 2, (v.2 : ℚ) + 1 / 2))) (by omega) hne
  refine ⟨closeRing (L.map (fun v => ((v.1 : ℚ) + 1 / 2, (v.2 : ℚ) + 1 / 2))), ?_, hhl,
    by omega, fun q hq => ?_⟩
  · unfold polygonOfContour
    rw [if_neg (by omega), if_pos (by omega)]
  · obtain ⟨v, hv, hfv⟩ := List.mem_map.mp (hmem q hq)
    exact ⟨v, hv, hfv.symm⟩

theorem polygonOfContour_length (L : Contour) (p : Poly)
    (h : polygonOfContour L = some p) : 3 ≤ p.length := by
  unfold polygonOfContour at h
  split at h
  · exact nomatch h
  · split at h
    · cases h
      assumption
    · exact nomatch h

/-! ### Claim theorems -/

/-- C1 (code bug demonstration): the spec requires a keep-mask length
mismatch to raise a fatal `ShapeError`, never to be recovered by falling
back to unfiltered processing.  In the code the raise at sam3/app.py line 385
sits inside the `try` whose blanket `except Exception` (line 397) catches it
and falls through to unfiltered CPU processing.  At a CUDA batch whose
reconciled mask count (3) differs from its score count (2), the function
returns a successful 2-feature FeatureCollection instead of propagating the
error. -/
theorem c1_keep_mask_mismatch_swallowed :
    (reconcileMasks c1_batch.masks = .ok [[[true]], [[false]], [[false]]]) ∧
    c1_batch.scores.length = 2 ∧
    sam3_outputs_to_geojson true (fun _ => none) c1_batch "object" mdSam =
      .ok ⟨[withMetadata (detect_to_feature [0, 0, 1, 1] none (1 / 2) "object") mdSam,
            withMetadata (detect_to_feature [0, 0, 2, 2] none (1 / 3) "object") mdSam]⟩ :=
  ⟨rfl, rfl, rfl⟩

/-- C4 (counterexample): the claim says the scenario shape [3, 2, 64, 64]
raises `ShapeError`; but its trailing spatial dimensions are square (64 = 64),
so the code's salvage path accepts it, producing a [3, 64, 64] tensor taking
index 0 of the second dimension. -/
theorem c4_counterexample :
    c4_tensor.shape = [3, 2, 64, 64] ∧
    reconcileMasks c4_tensor =
      .ok (List.replicate 3 (List.replicate 64 (List.replicate 64 false))) :=
  ⟨rfl, rfl⟩

/-- C4 (amended): shape reconciliation behaves as: rank-4 with second
dimension 1 is squeezed to rank 3; rank-4 with second dimension ≠ 1 and
square trailing dimensions is salvaged as `masks[:, 0, :, :]` (this covers
[3, 2, 64, 64]); rank-4 with second dimension ≠ 1 and non-square trailing
dimensions raises `ShapeError`; rank-2 gains a leading batch dimension of
size 1; rank 3 passes through; any other rank raises `ShapeError`. -/
theorem c4_shape_reconciliation :
    (∀ t : List (List MaskM), (t.getD 0 []).length = 1 →
      reconcileMasks (.rank4 t) = .ok (t.map (fun x => x.getD 0 []))) ∧
    (∀ t : List (List MaskM), (t.getD 0 []).length ≠ 1 →
      ((t.getD 0 []).getD 0 []).length = (((t.getD 0 []).getD 0 []).getD 0 []).length →
      reconcileMasks (.rank4 t) = .ok (t.map (fun x => x.getD 0 []))) ∧
    (∀ t : List (List MaskM), (t.getD 0 []).length ≠ 1 →
      ((t.getD 0 []).getD 0 []).length ≠ (((t.getD 0 []).getD 0 []).getD 0 []).length →
      reconcileMasks (.rank4 t) =
        .error (.normalizationFailed (MasksTensor.rank4 t).shape)) ∧
    (∀ t : MaskM, reconcileMasks (.rank2 t) = .ok [t]) ∧
    (∀ t : List MaskM, reconcileMasks (.rank3 t) = .ok t) ∧
    (∀ t : List Bool, reconcileMasks (.rank1 t) =
      .error (.cannotProcess (MasksTensor.rank1 t).shape)) ∧
    (∀ t : List (List (List MaskM)), reconcileMasks (.rank5 t) =
      .error (.cannotProcess (MasksTensor.rank5 t).shape)) := by
  refine ⟨fun t h1 => ?_, fun t h1 h2 => ?_, fun t h1 h2 => ?_,
    fun t => rfl, fun t => rfl, fun t => rfl, fun t => rfl⟩
  · show reconcileRank4 t = _
    unfold reconcileRank4
    rw [if_pos h1]
  · show reconcileRank4 t = _
    unfold reconcileRank4
    rw [if_neg h1, if_pos h2]
  · show reconcileRank4 t = _
    unfold reconcileRank4
    rw [if_neg h1, if_neg h2]

/-- Witness for C4: concrete tensors exercising the squeeze ([1, 1, 1, 1]),
the square salvage ([1, 2, 1, 1]), and the non-square error ([1, 2, 1, 2]). -/
theorem c4_shape_reconciliation_witness :
    reconcileMasks (.rank4 [[[[false]]]]) = .ok [[[false]]] ∧
    reconcileMasks (.rank4 [[[[false]], [[false]]]]) = .ok [[[false]]] ∧
    reconcileMasks (.rank4 [[[[false, false]], [[false, false]]]]) =
      .error (.normalizationFailed [1, 2, 1, 2]) :=
  ⟨c4_shape_reconciliation.1 [[[[false]]]] (by decide),
   c4_shape_reconciliation.2.1 [[[[false]], [[false]]]] (by decide) (by decide),
   c4_shape_reconciliation.2.2.1 [[[[false, false]], [[false, false]]]]
     (by decide) (by decide)⟩

/-- C5: for a normalized batch of N surviving detections (masks, boxes and
scores co-indexed), the i-th assembled feature is built from the i-th
detection's box, score and extracted polygon, and there are exactly N
features.  Both extraction paths are covered: with more than two detections
the source maps the extractor through `ThreadPoolExecutor.map`, whose
contract yields results in argument order regardless of worker completion
order, and otherwise it builds the list sequentially by index; the theorem
quantifies over every extractor. -/
theorem c5_feature_order :
    ∀ (ex : MaskM → Option Poly) (masks : List MaskM) (boxes : List (List ℚ))
      (scores : List ℚ) (dt : String) (md : ModelMetadata),
      masks.length = scores.length →
      (buildFeatures ex masks boxes scores dt md).length = scores.length ∧
      ∀ i, i < scores.length →
        (buildFeatures ex masks boxes scores dt md).getD i default =
          withMetadata (detect_to_feature (boxes.getD i []) (ex (masks.getD i []))
            (scores.getD i 0) dt) md := by
  intro ex masks boxes scores dt md hlen
  refine ⟨buildFeatures_length ex masks boxes scores dt md, fun i hi => ?_⟩
  unfold buildFeatures
  rw [getD_map_range _ _ _ hi]
  have hp : (computePolygons ex masks scores.length).getD i none = ex (masks.getD i []) := by
    unfold computePolygons
    by_cases h2 : 2 < scores.length
    · rw [if_pos h2]
      rw [getD_map_of_lt ex masks i (by omega) none []]
    · rw [if_neg h2]
      rw [getD_map_range _ _ _ hi]
  rw [hp]

/-- Witness for C5 at a concrete one-detection batch. -/
theorem c5_feature_order_witness :
    (buildFeatures (fun _ => some [(1, 1), (2, 1), (2, 2)]) [[[true]]] [[1, 2, 3, 4]]
        [3 / 4] "car" mdSam).getD 0 default =
      withMetadata (detect_to_feature [1, 2, 3, 4] (some [(1, 1), (2, 1), (2, 2)])
        (3 / 4) "car") mdSam :=
  (c5_feature_order (fun _ => some [(1, 1), (2, 1), (2, 2)]) [[[true]]] [[1, 2, 3, 4]]
    [3 / 4] "car" mdSam rfl).2 0 (by decide)

/-- C6: properties of `mask_to_polygon` for every rank-2 mask and every
possible contour answer from OpenCV: (1) a mask with zero positive pixels
yields absence, never an error; (2) a maximal-area contour with exactly 3
vertices yields absence; (3) a maximal-area contour with at least 4 vertices
yields a closed ring (first vertex equals last) of at least 3 vertices whose
every vertex is a contour pixel index offset by +0.5; (4) every returned
polygon has at least 3 vertices. -/
theorem c6_mask_to_polygon_contract :
    (∀ (mask : MaskM) (cs : List Contour), maskCount mask = 0 →
      mask_to_polygon mask cs = none) ∧
    (∀ (mask : MaskM) (c : Contour) (rest : List Contour),
      (largestContour c rest).length = 3 → mask_to_polygon mask (c :: rest) = none) ∧
    (∀ (mask : MaskM) (c : Contour) (rest : List Contour),
      maskCount mask ≠ 0 → 4 ≤ (largestContour c rest).length →
      ∃ p, mask_to_polygon mask (c :: rest) = some p ∧
        p.headD (0, 0) = p.getLastD (0, 0) ∧ 3 ≤ p.length ∧
        ∀ q ∈ p, ∃ v ∈ largestContour c rest,
          q = ((v.1 : ℚ) + 1 / 2, (v.2 : ℚ) + 1 / 2)) ∧
    (∀ (mask : MaskM) (cs : List Contour) (p : Poly),
      mask_to_polygon mask cs = some p → 3 ≤ p.length) := by
  refine ⟨fun mask cs h => ?_, fun mask c rest h3 => ?_,
    fun mask c rest h0 h4 => ?_, fun mask cs p h => ?_⟩
  · unfold mask_to_polygon
    rw [if_pos h]
  · unfold mask_to_polygon
    by_cases h0 : maskCount mask = 0
    · rw [if_pos h0]
    · rw [if_neg h0]
      show polygonOfContour (largestContour c rest) = none
      unfold polygonOfContour
      rw [if_pos (by omega)]
  · unfold mask_to_polygon
    rw [if_neg h0]
    exact polygonOfContour_spec _ h4
  · unfold mask_to_polygon at h
    split at h
    · exact nomatch h
    · cases cs with
      | nil => exact nomatch h
      | cons c rest => exact polygonOfContour_length _ p h

/-- Witness for C6: the empty mask, a triangle contour, and the concrete
closed square ring. -/
theorem c6_mask_to_polygon_witness :
    mask_to_polygon [[false]] [[(0, 0), (1, 0), (1, 1), (0, 1)]] = none ∧
    mask_to_polygon [[true]] [[(0, 0), (2, 0), (2, 2)]] = none ∧
    3 ≤ ([((1 : ℚ) / 2, (1 : ℚ) / 2), (5 / 2, 1 / 2), (5 / 2, 5 / 2), (1 / 2, 5 / 2),
      (1 / 2, 1 / 2)] : Poly).length :=
  ⟨c6_mask_to_polygon_contract.1 [[false]] _ (by decide),
   c6_mask_to_polygon_contract.2.1 [[true]] [(0, 0), (2, 0), (2, 2)] [] (by decide),
   c6_mask_to_polygon_contract.2.2.2 [[true]] [[(0, 0), (2, 0), (2, 2), (0, 2)]] _ (by
     norm_num [mask_to_polygon, maskCount, largestContour, polygonOfContour, closeRing])⟩

/-- C7: with zero detections present, or zero detections surviving the
on-device empty-mask filtering, the function returns exactly the empty
FeatureCollection.  Both conclusions hold for every extractor `ex`, and the
result is a constant independent of it, so no extraction work can influence
the outcome (no per-mask extraction is performed: the feature loop runs zero
times). -/
theorem c7_zero_detections_empty :
    (∀ (cuda : Bool) (ex : MaskM → Option Poly) (batch : RawBatch) (dt : String)
        (md : ModelMetadata) (masks3 : List MaskM),
      batch.scores = [] → reconcileMasks batch.masks = .ok masks3 →
      sam3_outputs_to_geojson cuda ex batch dt md = .ok ⟨[]⟩) ∧
    (∀ (ex : MaskM → Option Poly) (batch : RawBatch) (dt : String)
        (md : ModelMetadata) (masks3 : List MaskM),
      reconcileMasks batch.masks = .ok masks3 →
      masks3.length = batch.scores.length →
      (∀ m ∈ masks3, maskNonEmpty m = false) →
      sam3_outputs_to_geojson true ex batch dt md = .ok ⟨[]⟩) := by
  constructor
  · intro cuda ex batch dt md masks3 hs hrec
    rw [sam3_outputs_to_geojson, hrec]
    have hf : filterStage cuda masks3 batch = .proceed masks3 batch.boxes batch.scores := by
      unfold filterStage
      rw [if_neg]
      intro hc
      rw [hs] at hc
      exact absurd hc.2 (by simp)
    show Except.ok (assembleOutcome ex (filterStage cuda masks3 batch) dt md) = .ok ⟨[]⟩
    rw [hf]
    show Except.ok (FeatureCollection.mk (buildFeatures ex masks3 batch.boxes batch.scores dt md)) = _
    unfold buildFeatures
    rw [hs]
    rfl
  · intro ex batch dt md masks3 hrec hlen hempty
    rw [sam3_outputs_to_geojson, hrec]
    show Except.ok (assembleOutcome ex (filterStage true masks3 batch) dt md) = .ok ⟨[]⟩
    by_cases hn : 0 < batch.scores.length
    · have hany : (masks3.map maskNonEmpty).any id = false := by
        rw [List.any_eq_false]
        intro x hx
        obtain ⟨m, hm, hxm⟩ := List.mem_map.mp hx
        rw [← hxm]
        simp [hempty m hm]
      have hc : (true : Bool) ∧ 0 < batch.scores.length := ⟨rfl, hn⟩
      have hf : filterStage true masks3 batch = .emptyReturn := by
        unfold filterStage
        rw [if_pos hc]
        unfold gpuFilter
        rw [if_neg (by rw [List.length_map, hlen]; exact fun hne => hne rfl), if_neg (by
          rw [hany]; exact fun hx => nomatch hx)]
      rw [hf]
      rfl
    · have hs : batch.scores = [] := List.length_eq_zero.mp (by omega)
      have hf : filterStage true masks3 batch = .proceed masks3 batch.boxes batch.scores := by
        unfold filterStage
        rw [if_neg (fun hc => hn hc.2)]
      rw [hf]
      show Except.ok (FeatureCollection.mk (buildFeatures ex masks3 batch.boxes batch.scores dt md)) = _
      unfold buildFeatures
      rw [hs]
      rfl

/-- Witness for C7: a zero-detection batch and a CUDA batch whose single mask
is empty, with two different extractors returning the same empty collection. -/
theorem c7_zero_detections_empty_witness :
    sam3_outputs_to_geojson true (fun _ => none)
      (RawBatch.mk (.rank3 []) [] []) "object" mdSam = .ok ⟨[]⟩ ∧
    sam3_outputs_to_geojson true (fun _ => some [(0, 0), (1, 0), (1, 1)])
      (RawBatch.mk (.rank3 [[[false]]]) [[0, 0, 1, 1]] [9 / 10]) "object" mdSam =
      .ok ⟨[]⟩ :=
  ⟨c7_zero_detections_empty.1 true (fun _ => none) (RawBatch.mk (.rank3 []) [] [])
      "object" mdSam [] rfl rfl,
   c7_zero_detections_empty.2 (fun _ => some [(0, 0), (1, 0), (1, 1)])
      (RawBatch.mk (.rank3 [[[false]]]) [[0, 0, 1, 1]] [9 / 10]) "object" mdSam
      [[[false]]] rfl rfl (by decide)⟩

/-- C8: alpha-band noninterference.  For two 4-band rasters with the same
dtype whose first three bands agree (pixel data and NoData sentinels), the
canonical images are identical — the 4th band is never read by
`process_gdal_image_to_rgb`. -/
theorem c8_alpha_noninterference :
    ∀ g1 g2 : RasterGrid,
      g1.dtype = g2.dtype →
      g1.bands.length = 4 → g2.bands.length = 4 →
      g1.bands.getD 0 default = g2.bands.getD 0 default →
      g1.bands.getD 1 default = g2.bands.getD 1 default →
      g1.bands.getD 2 default = g2.bands.getD 2 default →
      process_gdal_image_to_rgb g1 = process_gdal_image_to_rgb g2 := by
  intro g1 g2 hd h1 h2 e0 e1 e2
  unfold process_gdal_image_to_rgb
  rw [h1, h2, hd, e0, e1, e2]

/-- Witness for C8: two concrete 4-band rasters differing only in the 4th
band produce the same output. -/
theorem c8_alpha_noninterference_witness :
    c8_gA ≠ c8_gB ∧
    process_gdal_image_to_rgb c8_gA = process_gdal_image_to_rgb c8_gB :=
  ⟨by decide, c8_alpha_noninterference c8_gA c8_gB rfl rfl rfl rfl rfl rfl⟩

/-- C9: the feature count never exceeds the initial detection count
`len(scores)` (it can only shrink through empty-mask filtering), and it is
independent of the extractor — in particular a surviving detection whose
polygon is absent still yields a feature, since an extractor returning
absence for every mask produces the same number of features. -/
theorem c9_feature_count_bounded :
    ∀ (cuda : Bool) (ex : MaskM → Option Poly) (batch : RawBatch) (dt : String)
      (md : ModelMetadata) (fc : FeatureCollection),
      sam3_outputs_to_geojson cuda ex batch dt md = .ok fc →
      fc.features.length ≤ batch.scores.length ∧
      ∀ (ex2 : MaskM → Option Poly) (fc2 : FeatureCollection),
        sam3_outputs_to_geojson cuda ex2 batch dt md = .ok fc2 →
        fc2.features.length = fc.features.length := by
  intro cuda ex batch dt md fc h
  have h1 := sam3_features_length cuda ex batch dt md fc h
  refine ⟨by rw [h1]; exact survivingCount_le cuda batch, fun ex2 fc2 h2 => ?_⟩
  exact (sam3_features_length cuda ex2 batch dt md fc2 h2).trans h1.symm

/-- Witness for C9 at a concrete one-detection batch, comparing a
polygon-producing extractor with the all-absent extractor. -/
theorem c9_feature_count_bounded_witness :
    (FeatureCollection.mk
        [withMetadata (detect_to_feature [1, 2, 3, 4]
          (some [(1, 1), (2, 1), (2, 2)]) (9 / 10) "object") mdSam]).features.length ≤
      c9_batch.scores.length ∧
    (FeatureCollection.mk
        [withMetadata (detect_to_feature [1, 2, 3, 4] none (9 / 10) "object") mdSam]
      ).features.length =
      (FeatureCollection.mk
        [withMetadata (detect_to_feature [1, 2, 3, 4]
          (some [(1, 1), (2, 1), (2, 2)]) (9 / 10) "object") mdSam]).features.length :=
  ⟨(c9_feature_count_bounded false (fun _ => some [(1, 1), (2, 1), (2, 2)]) c9_batch
      "object" mdSam _ rfl).1,
   (c9_feature_count_bounded false (fun _ => some [(1, 1), (2, 1), (2, 2)]) c9_batch
      "object" mdSam _ rfl).2 (fun _ => none) _ rfl⟩

/-- C10: the failure model never injects a fault on grayscale input: a 2-D
image yields dominant color (0, 0, 0); a 3-D single-channel image yields an
equal-component triple; and for every equal-component triple none of the
four color predicates (red, green, purple, blue) can hold, so
`trigger_behavior_by_color` returns the fallback status-200 response with
exactly one standard detection feature. -/
theorem c10_grayscale_never_faults :
    (∀ m : Mat, get_dominant_color (.planar2 m) = (0, 0, 0)) ∧
    (∀ chans : List Mat, chans.length = 1 →
      ∃ a, get_dominant_color (.planar3 chans) = (a, a, a)) ∧
    (∀ r g b : ℤ, r = g → g = b →
      trigger_behavior_by_color r g b =
        .standard [detect_to_feature [100, 100, 200, 200] none 1 "test_object"] ∧
      (trigger_behavior_by_color r g b).status = 200) := by
  refine ⟨fun m => rfl, fun chans h1 => ?_, fun r g b hrg hgb => ?_⟩
  · match chans, h1 with
    | [c], _ => exact ⟨truncQ (channelMean c), rfl⟩
  · subst hgb
    subst hrg
    have hmain : trigger_behavior_by_color r r r =
        .standard [detect_to_feature [100, 100, 200, 200] none 1 "test_object"] := by
      unfold trigger_behavior_by_color
      rw [if_neg (by omega), if_neg (by omega), if_neg (by omega), if_neg (by omega)]
    exact ⟨hmain, by rw [hmain]; rfl⟩

/-- Witness for C10 at a concrete single-channel image and the gray triple
(7, 7, 7). -/
theorem c10_grayscale_never_faults_witness :
    (∃ a, get_dominant_color (.planar3 [[[2, 3]]]) = (a, a, a)) ∧
    trigger_behavior_by_color 7 7 7 =
      .standard [detect_to_feature [100, 100, 200, 200] none 1 "test_object"] :=
  ⟨c10_grayscale_never_faults.2.1 [[[2, 3]]] rfl,
   (c10_grayscale_never_faults.2.2 7 7 7 rfl rfl).1⟩

/-! ### Lemmas for the normalization theorems (C2, C3) -/

theorem truncQ_zero : truncQ 0 = 0 := by simp [truncQ]

theorem u16norm_zero : u16norm 0 = 0 := by norm_num [u16norm, clip0255, truncQ]

theorem fNormScale_zero : fNormScale 0 = 0 := by norm_num [fNormScale, clip0255, truncQ]

theorem fBoundCast_zero : fBoundCast 0 = 0 := by norm_num [fBoundCast, clip0255, truncQ]

theorem normalizeFloat_diag (d : Mat) : ∃ e, normalizeFloat (d, d, d) = (e, e, e) := by
  unfold normalizeFloat
  by_cases h1 : globalMax (d, d, d) ≤ 1 ∧ 0 ≤ globalMin (d, d, d)
  · rw [if_pos h1]
    exact ⟨matCast fNormScale d, rfl⟩
  · rw [if_neg h1]
    by_cases h2 : globalMax (d, d, d) ≤ 255 ∧ 0 ≤ globalMin (d, d, d)
    · rw [if_pos h2]
      exact ⟨matCast fBoundCast d, rfl⟩
    · rw [if_neg h2]
      exact ⟨stretchBand d, rfl⟩

/-- Every dtype branch applies the same per-element conversion (or per-band
stretch) to all three channels, so a diagonal triple stays diagonal. -/
theorem normalize_diag (dt : DType) (d : Mat) :
    ∃ e, normalizeChannels dt (d, d, d) = (e, e, e) := by
  cases dt with
  | u8 => exact ⟨matCast u8cast d, rfl⟩
  | u16 => exact ⟨matCast u16norm d, rfl⟩
  | i16 => exact ⟨matCast i16norm d, rfl⟩
  | f32 => exact normalizeFloat_diag d
  | f64 => exact normalizeFloat_diag d
  | other => exact ⟨matCast otherCast d, rfl⟩

/-- On the uint8, uint16, and float normalized/bounded paths, normalization
is a per-element conversion sending 0 to 0. -/
theorem normalize_as_cast (dt : DType) (c : Mat × Mat × Mat)
    (hdt : dt = .u8 ∨ dt = .u16 ∨
      ((dt = .f32 ∨ dt = .f64) ∧ 0 ≤ globalMin c ∧ globalMax c ≤ 255)) :
    ∃ f, f 0 = 0 ∧ normalizeChannels dt c = castTriple f c := by
  have hfloat : 0 ≤ globalMin c → globalMax c ≤ 255 →
      ∃ f, f 0 = 0 ∧ normalizeFloat c = castTriple f c := by
    intro hmin hmax
    unfold normalizeFloat
    by_cases h1 : globalMax c ≤ 1 ∧ 0 ≤ globalMin c
    · rw [if_pos h1]
      exact ⟨fNormScale, fNormScale_zero, rfl⟩
    · have h2 : globalMax c ≤ 255 ∧ 0 ≤ globalMin c := ⟨hmax, hmin⟩
      rw [if_neg h1, if_pos h2]
      exact ⟨fBoundCast, fBoundCast_zero, rfl⟩
  rcases hdt with h | h | ⟨hf, hmin, hmax⟩
  · subst h
    exact ⟨u8cast, truncQ_zero, rfl⟩
  · subst h
    exact ⟨u16norm, u16norm_zero, rfl⟩
  · rcases hf with h | h
    · subst h
      exact hfloat hmin hmax
    · subst h
      exact hfloat hmin hmax

/-- Channel `b < 3` of the transposed image after a per-element cast is the
cast of the corresponding masked channel value, which is 0 when that value
is 0. -/
theorem pix_zero_cast (f : ℚ → ℤ) (m0 m1 m2 : Mat) (b i j : ℕ)
    (hf0 : f 0 = 0) (hb : b < 3)
    (hq : qget (chanG (m0, m1, m2) b) i j = 0)
    (hi : i < m0.length)
    (hj : j < (m0[i]?.getD []).length)
    (hjb : j < ((chanG (m0, m1, m2) b)[i]?.getD []).length) :
    pixAt (toHWC (matCast f m0) (matCast f m1) (matCast f m2)) i j b = 0 := by
  have hi' : i < (matCast f m0).length := by rw [length_matCast]; exact hi
  have hj' : j < ((matCast f m0)[i]?.getD []).length := by
    rw [row_matCast, List.length_map]; exact hj
  rw [pixAt_toHWC _ _ _ i j b hi' hj']
  interval_cases b
  · show zget (matCast f m0) i j = 0
    have hq0 : qget m0 i j = 0 := hq
    rw [zget_matCast f m0 i j hjb, hq0, hf0]
  · show zget (matCast f m1) i j = 0
    have hq1 : qget m1 i j = 0 := hq
    rw [zget_matCast f m1 i j hjb, hq1, hf0]
  · show zget (matCast f m2) i j = 0
    have hq2 : qget m2 i j = 0 := hq
    rw [zget_matCast f m2 i j hjb, hq2, hf0]

/-- C3 (counterexample): a single-band uint8 raster whose only pixel equals
the declared NoData sentinel produces the canonical pixel (0, 5, 5): masking
zeroes only channel 0 of the replicated RGB array (the masking loop runs over
`range(min(3, num_bands)) = range(1)`), so R ≠ G and the claimed R=G=B fails. -/
theorem c3_counterexample :
    process_gdal_image_to_rgb c3_grid = some [[[0, 5, 5]]] ∧
    pixAt [[[0, 5, 5]]] 0 0 0 ≠ pixAt [[[0, 5, 5]]] 0 0 1 :=
  ⟨rfl, by decide⟩

/-- C3 (amended): for every accepted single-band raster where no pixel of the
band matches a declared NoData sentinel (in particular when no sentinel is
declared), every pixel of the canonical image satisfies R = G = B.  The
original claim also covered sentinel-matching pixels, which fails because
NoData masking zeroes only channel 0 of the replicated array (see
`c3_counterexample`). -/
theorem c3_single_band_gray :
    ∀ (g : RasterGrid) (out : List (List (List ℤ))),
      g.bands.length = 1 →
      (∀ nd, (g.bands.getD 0 default).nodata = some nd →
        ∀ r ∈ (g.bands.getD 0 default).data, ∀ x ∈ r,
          matchesNoData g.dtype nd x = false) →
      process_gdal_image_to_rgb g = some out →
      ∀ row ∈ out, ∀ pix ∈ row, ∃ a : ℤ, pix = [a, a, a] := by
  intro g out h1 hnod hproc
  have hsel : selectChannels g.bands.length (g.bands.getD 0 default)
      (g.bands.getD 1 default) (g.bands.getD 2 default) =
      some ((g.bands.getD 0 default).data, (g.bands.getD 0 default).data,
        (g.bands.getD 0 default).data) := by
    unfold selectChannels
    rw [h1]
    rfl
  have hmask : maskChannels g.dtype g.bands.length (g.bands.getD 0 default)
      (g.bands.getD 1 default) (g.bands.getD 2 default)
      ((g.bands.getD 0 default).data, (g.bands.getD 0 default).data,
        (g.bands.getD 0 default).data) =
      ((g.bands.getD 0 default).data, (g.bands.getD 0 default).data,
        (g.bands.getD 0 default).data) := by
    unfold maskChannels
    rw [h1]
    rw [if_pos (by decide : 0 < min 3 1), if_neg (by decide : ¬1 < min 3 1),
      if_neg (by decide : ¬2 < min 3 1)]
    rw [applyNoData_id g.dtype (g.bands.getD 0 default).nodata
      (g.bands.getD 0 default).data hnod]
  obtain ⟨e, he⟩ := normalize_diag g.dtype (g.bands.getD 0 default).data
  unfold process_gdal_image_to_rgb at hproc
  rw [hsel, Option.map_some'] at hproc
  rw [hmask, he] at hproc
  unfold toHWC3 at hproc
  dsimp only at hproc
  injection hproc with hout
  subst hout
  intro row hrow pix hpix
  unfold toHWC at hrow
  obtain ⟨i, hi, hrowEq⟩ := List.mem_map.mp hrow
  subst hrowEq
  obtain ⟨j, hj, hpixEq⟩ := List.mem_map.mp hpix
  exact ⟨zget e i j, hpixEq.symm⟩

/-- Witness for C3 at a single-band uint8 raster with a declared sentinel
matching no pixel. -/
theorem c3_single_band_gray_witness :
    ∃ a : ℤ, ([7, 7, 7] : List ℤ) = [a, a, a] :=
  c3_single_band_gray ⟨.u8, [⟨[[7]], some 9⟩]⟩ [[[7, 7, 7]]] rfl
    (fun nd h => by
      injection h with h9
      subst h9
      decide)
    rfl [[7, 7, 7]] (by decide) [7, 7, 7] (by decide)

/-- C2 (counterexample): an int16 raster whose pixels all equal the declared
NoData sentinel 5.  The sentinel matches (exact integer equality), the pixel
is zeroed by masking, but int16 normalization then shifts by +32768 and
scales by the int16 type maximum 32767, mapping the masked 0 to
clip(32768 / 32767 * 255) = 255 — not 0.  The claimed "masked pixels are 0 in
the output" fails on the int16 path. -/
theorem c2_counterexample :
    (c2_grid.bands.getD 0 default).nodata = some 5 ∧
    matchesNoData c2_grid.dtype 5 (qget (c2_grid.bands.getD 0 default).data 0 0) = true ∧
    process_gdal_image_to_rgb c2_grid = some [[[255, 255, 255]]] ∧
    pixAt [[[255, 255, 255]]] 0 0 0 ≠ 0 := by
  refine ⟨rfl, by decide, ?_, by decide⟩
  have hval : i16norm 0 = 255 := by
    norm_num [i16norm, clip0255, truncQ, min_def, max_def]
  norm_num [process_gdal_image_to_rgb, c2_grid, selectChannels, maskChannels, applyNoData,
    matMap, matchesNoData, DType.isFloating, normalizeChannels, castTriple, matCast,
    toHWC3, toHWC, zget, qget, hval, List.range_succ]

/-- C2 (amended): for every accepted raster, a pixel of selected band `b`
matching the band's declared NoData sentinel has value 0 in channel `b` of
the canonical image on the uint8 pass-through, uint16 scaling, and float
normalized / already-bounded classification paths.  The original claim also
asserted this for the int16 path and all three float classifications, which
fails: int16 scaling maps a masked 0 to 255 (see `c2_counterexample`), and
the raw-float per-band stretch maps 0 to a positive value whenever the band
contains negative values. -/
theorem c2_nodata_zero :
    ∀ (g : RasterGrid) (b i j : ℕ) (nd : ℚ) (out : List (List (List ℤ))),
      g.bands.length = 1 ∨ 3 ≤ g.bands.length →
      b < min 3 g.bands.length →
      (g.bands.getD b default).nodata = some nd →
      matchesNoData g.dtype nd (qget (g.bands.getD b default).data i j) = true →
      i < (g.bands.getD b default).data.length →
      j < ((g.bands.getD b default).data[i]?.getD []).length →
      (g.bands.getD b default).data.length = (g.bands.getD 0 default).data.length →
      ((g.bands.getD b default).data[i]?.getD []).length =
        ((g.bands.getD 0 default).data[i]?.getD []).length →
      (g.dtype = .u8 ∨ g.dtype = .u16 ∨
        ((g.dtype = .f32 ∨ g.dtype = .f64) ∧ 0 ≤ globalMin (maskedTriple g) ∧
          globalMax (maskedTriple g) ≤ 255)) →
      process_gdal_image_to_rgb g = some out →
      pixAt out i j b = 0 := by
  intro g b i j nd out hacc hb hnod hmatch hi hj hlen0 hrow0 hpath hproc
  rcases hacc with h1 | h3
  · -- single band: b = 0, channels replicated, only channel 0 masked
    have hb0 : b = 0 := by rw [h1] at hb; omega
    subst hb0
    have hsel : selectChannels g.bands.length (g.bands.getD 0 default)
        (g.bands.getD 1 default) (g.bands.getD 2 default) =
        some ((g.bands.getD 0 default).data, (g.bands.getD 0 default).data,
          (g.bands.getD 0 default).data) := by
      unfold selectChannels
      rw [h1]
      rfl
    have hmask : maskChannels g.dtype g.bands.length (g.bands.getD 0 default)
        (g.bands.getD 1 default) (g.bands.getD 2 default)
        ((g.bands.getD 0 default).data, (g.bands.getD 0 default).data,
          (g.bands.getD 0 default).data) =
        (applyNoData g.dtype (some nd) (g.bands.getD 0 default).data,
          (g.bands.getD 0 default).data, (g.bands.getD 0 default).data) := by
      unfold maskChannels
      rw [h1]
      rw [if_pos (by decide : 0 < min 3 1), if_neg (by decide : ¬1 < min 3 1),
        if_neg (by decide : ¬2 < min 3 1), hnod]
    have hmt : maskedTriple g =
        (applyNoData g.dtype (some nd) (g.bands.getD 0 default).data,
          (g.bands.getD 0 default).data, (g.bands.getD 0 default).data) := by
      unfold maskedTriple
      rw [hsel, Option.getD_some, hmask]
    rw [hmt] at hpath
    obtain ⟨f, hf0, hcast⟩ := normalize_as_cast g.dtype _ hpath
    unfold process_gdal_image_to_rgb at hproc
    rw [hsel, Option.map_some'] at hproc
    rw [hmask, hcast] at hproc
    unfold toHWC3 castTriple at hproc
    dsimp only at hproc
    injection hproc with hout
    subst hout
    exact pix_zero_cast f _ _ _ 0 i j hf0 (by omega)
      (qget_applyNoData_matched g.dtype nd (g.bands.getD 0 default).data i j hj hmatch)
      (by rw [applyNoData_length]; exact hi)
      (by rw [applyNoData_row_length]; exact hj)
      (by simp only [chanG]; rw [applyNoData_row_length]; exact hj)
  · -- at least three bands: channels are bands 0, 1, 2, all three masked
    have hb3 : b < 3 := by omega
    have hsel : selectChannels g.bands.length (g.bands.getD 0 default)
        (g.bands.getD 1 default) (g.bands.getD 2 default) =
        some ((g.bands.getD 0 default).data, (g.bands.getD 1 default).data,
          (g.bands.getD 2 default).data) := by
      unfold selectChannels
      rw [if_pos h3]
    have hmin3 : min 3 g.bands.length = 3 := by omega
    have hmask : maskChannels g.dtype g.bands.length (g.bands.getD 0 default)
        (g.bands.getD 1 default) (g.bands.getD 2 default)
        ((g.bands.getD 0 default).data, (g.bands.getD 1 default).data,
          (g.bands.getD 2 default).data) =
        (applyNoData g.dtype (g.bands.getD 0 default).nodata (g.bands.getD 0 default).data,
          applyNoData g.dtype (g.bands.getD 1 default).nodata (g.bands.getD 1 default).data,
          applyNoData g.dtype (g.bands.getD 2 default).nodata (g.bands.getD 2 default).data) := by
      unfold maskChannels
      rw [hmin3]
      rw [if_pos (by decide : 0 < 3), if_pos (by decide : 1 < 3), if_pos (by decide : 2 < 3)]
    have hmt : maskedTriple g =
        (applyNoData g.dtype (g.bands.getD 0 default).nodata (g.bands.getD 0 default).data,
          applyNoData g.dtype (g.bands.getD 1 default).nodata (g.bands.getD 1 default).data,
          applyNoData g.dtype (g.bands.getD 2 default).nodata (g.bands.getD 2 default).data) := by
      unfold maskedTriple
      rw [hsel, Option.getD_some, hmask]
    rw [hmt] at hpath
    obtain ⟨f, hf0, hcast⟩ := normalize_as_cast g.dtype _ hpath
    unfold process_gdal_image_to_rgb at hproc
    rw [hsel, Option.map_some'] at hproc
    rw [hmask, hcast] at hproc
    unfold toHWC3 castTriple at hproc
    dsimp only at hproc
    injection hproc with hout
    subst hout
    interval_cases b
    · rw [hnod]
      exact pix_zero_cast f _ _ _ 0 i j hf0 (by omega)
        (qget_applyNoData_matched g.dtype nd (g.bands.getD 0 default).data i j hj hmatch)
        (by rw [applyNoData_length]; exact hi)
        (by rw [applyNoData_row_length]; exact hj)
        (by simp only [chanG]; rw [applyNoData_row_length]; exact hj)
    · rw [hnod]
      exact pix_zero_cast f _ _ _ 1 i j hf0 (by omega)
        (qget_applyNoData_matched g.dtype nd (g.bands.getD 1 default).data i j hj hmatch)
        (by rw [applyNoData_length, ← hlen0]; exact hi)
        (by rw [applyNoData_row_length, ← hrow0]; exact hj)
        (by simp only [chanG]; rw [applyNoData_row_length]; exact hj)
    · rw [hnod]
      exact pix_zero_cast f _ _ _ 2 i j hf0 (by omega)
        (qget_applyNoData_matched g.dtype nd (g.bands.getD 2 default).data i j hj hmatch)
        (by rw [applyNoData_length, ← hlen0]; exact hi)
        (by rw [applyNoData_row_length, ← hrow0]; exact hj)
        (by simp only [chanG]; rw [applyNoData_row_length]; exact hj)

/-- Witness for C2 at a uint8 raster whose band 0 pixel matches the declared
sentinel. -/
theorem c2_nodata_zero_witness :
    pixAt [[[0, 1, 2]]] 0 0 0 = 0 :=
  c2_nodata_zero ⟨.u8, [⟨[[5]], some 5⟩, ⟨[[1]], none⟩, ⟨[[2]], none⟩]⟩ 0 0 0 5
    [[[0, 1, 2]]] (Or.inr (by decide)) (by decide) rfl (by decide) (by decide)
    (by decide) rfl rfl (Or.inl rfl) rfl

end OsmlModels
